import Mathlib

/-!
# Brief2Bill — verification of the output-normalization and repair core

Shallow embedding of the numeric core of the Brief2Bill backend:
the totals engines (`app/services/totals.py` in both the `ai-backend`
and `app` trees, and `_calculate_totals` in
`ai-backend/app/services/output_processing.py`), the Indian
amount-in-words conversion, the billing-plan normalizer, the GST block
resolution, the repair engine and the JSON extractors.

Python `float` arithmetic is embedded as exact rational arithmetic (`ℚ`);
Python's `round` (round-half-to-even) is `roundTE` / `round2` below.
A Python function that can raise is embedded with an `Option` codomain
(`none` = an exception escapes).
-/

namespace Brief2Bill

/-- Python's `round(x)`: round to the nearest integer, ties to even. -/
def roundTE (q : ℚ) : ℤ :=
  if q - ⌊q⌋ < 1/2 then ⌊q⌋
  else if 1/2 < q - ⌊q⌋ then ⌊q⌋ + 1
  else if Even ⌊q⌋ then ⌊q⌋ else ⌊q⌋ + 1

/-- Python's `round(x, 2)`: round to the nearest multiple of 1/100, ties to even. -/
def round2 (q : ℚ) : ℚ := (roundTE (q * 100) : ℚ) / 100

theorem roundTE_intCast (n : ℤ) : roundTE (n : ℚ) = n := by
  unfold roundTE
  rw [Int.floor_intCast]
  norm_num

theorem abs_roundTE_sub_le (q : ℚ) : |(roundTE q : ℚ) - q| ≤ 1/2 := by
  have hfl : (⌊q⌋ : ℚ) ≤ q := Int.floor_le q
  have hfu : q < ⌊q⌋ + 1 := Int.lt_floor_add_one q
  unfold roundTE
  by_cases h1 : q - ⌊q⌋ < 1/2
  · rw [if_pos h1, abs_sub_comm, abs_of_nonneg (by linarith)]
    linarith
  · rw [if_neg h1]
    by_cases h2 : 1/2 < q - ⌊q⌋
    · rw [if_pos h2]
      push_cast
      rw [abs_of_nonneg (by linarith)]
      linarith
    · rw [if_neg h2]
      have he : q - ⌊q⌋ = 1/2 := by linarith
      by_cases h3 : Even ⌊q⌋
      · rw [if_pos h3, abs_sub_comm, abs_of_nonneg (by linarith)]
        linarith
      · rw [if_neg h3]
        push_cast
        rw [abs_of_nonneg (by linarith)]
        linarith

theorem roundTE_eq_of_abs_lt {q : ℚ} {n : ℤ} (h : |q - n| < 1/2) : roundTE q = n := by
  rw [abs_lt] at h
  obtain ⟨hl, hu⟩ := h
  by_cases hc : (n : ℚ) ≤ q
  · have hfl : ⌊q⌋ = n := by
      rw [Int.floor_eq_iff]
      constructor
      · exact_mod_cast hc
      · linarith
    unfold roundTE
    rw [hfl, if_pos (by linarith)]
  · push_neg at hc
    have hfl : ⌊q⌋ = n - 1 := by
      rw [Int.floor_eq_iff]
      constructor
      · push_cast; linarith
      · push_cast; linarith
    unfold roundTE
    rw [hfl]
    rw [if_neg (by push_cast; intro hcon; linarith)]
    rw [if_pos (by push_cast; linarith)]
    ring

theorem roundTE_tie (n : ℤ) : roundTE ((n : ℚ) + 1/2) = if Even n then n else n + 1 := by
  have hfl : ⌊(n : ℚ) + 1/2⌋ = n := by
    rw [Int.floor_eq_iff]
    constructor
    · linarith
    · linarith
  unfold roundTE
  rw [hfl]
  norm_num

theorem roundTE_nonneg {q : ℚ} (h : 0 ≤ q) : 0 ≤ roundTE q := by
  have hfl : (0 : ℤ) ≤ ⌊q⌋ := Int.floor_nonneg.mpr h
  unfold roundTE
  split
  · omega
  · split
    · omega
    · split <;> omega

/-- The key integrality lemma shared by the totals engines: with
`rounded = round(pre)`, `round_off = round(rounded - pre, 2)` and
`grand = round(pre + round_off, 2)`, the grand total is exactly the
integer `rounded` (ties land on a multiple of 100, which is even). -/
theorem grand_eq_roundTE (pre : ℚ) :
    round2 (pre + round2 ((roundTE pre : ℚ) - pre)) = (roundTE pre : ℚ) := by
  set r : ℤ := roundTE pre with hr
  set y : ℚ := ((r : ℚ) - pre) * 100 with hy
  set d : ℚ := (roundTE y : ℚ) - y with hd
  have hderr : |d| ≤ 1/2 := by
    rw [hd]
    exact abs_roundTE_sub_le y
  have hval : (pre + round2 ((r : ℚ) - pre)) * 100 = ((100 * r : ℤ) : ℚ) + d := by
    rw [round2, ← hy, hd]
    push_cast
    ring
  have hgoal : roundTE ((pre + round2 ((r : ℚ) - pre)) * 100) = 100 * r := by
    rw [hval]
    rcases lt_or_eq_of_le hderr with hlt | heq
    · apply roundTE_eq_of_abs_lt
      simpa using hlt
    · rcases (abs_eq (by norm_num : (0:ℚ) ≤ 1/2)).mp heq with hpos | hneg
      · -- d = 1/2 : value is 100r + 1/2 with 100r even
        rw [hpos, roundTE_tie (100 * r)]
        have heven : Even (100 * r) := ⟨50 * r, by ring⟩
        rw [if_pos heven]
      · -- d = -1/2 : value is (100r - 1) + 1/2 with 100r - 1 odd
        have hv : ((100 * r : ℤ) : ℚ) + d = ((100 * r - 1 : ℤ) : ℚ) + 1/2 := by
          rw [hneg]
          push_cast
          ring
        rw [hv, roundTE_tie (100 * r - 1)]
        have hodd : ¬ Even (100 * r - 1) := by
          rintro ⟨k, hk⟩
          omega
        rw [if_neg hodd]
        ring
  rw [round2, hgoal]
  push_cast
  ring

/-! ## Indian amount-in-words conversion

`number_to_words_indian` from `ai-backend/app/services/totals.py` and the
second implementation from `app/services/totals.py`.  Python list indexing
is embedded with `List.get?`, so an `IndexError` shows up as `none`. -/

def wordsOnes : List String :=
  ["", "One", "Two", "Three", "Four", "Five", "Six", "Seven", "Eight", "Nine"]

def wordsTens : List String :=
  ["", "", "Twenty", "Thirty", "Forty", "Fifty", "Sixty", "Seventy", "Eighty", "Ninety"]

def wordsTeens : List String :=
  ["Ten", "Eleven", "Twelve", "Thirteen", "Fourteen", "Fifteen",
   "Sixteen", "Seventeen", "Eighteen", "Nineteen"]

def convert_below_hundred (n : ℕ) : Option String :=
  if n = 0 then some ""
  else if n < 10 then wordsOnes.get? n
  else if n < 20 then wordsTeens.get? (n - 10)
  else do
    let t ← wordsTens.get? (n / 10)
    if n % 10 ≠ 0 then do
      let o ← wordsOnes.get? (n % 10)
      pure (t ++ " " ++ o)
    else
      pure t

def convert_below_thousand (n : ℕ) : Option String :=
  if n = 0 then some ""
  else if n < 100 then convert_below_hundred n
  else do
    let h ← wordsOnes.get? (n / 100)
    if n % 100 ≠ 0 then do
      let r ← convert_below_hundred (n % 100)
      pure (h ++ " Hundred" ++ " " ++ r)
    else
      pure (h ++ " Hundred")

/-- `number_to_words_indian` (`ai-backend/app/services/totals.py`), on its
declared non-negative domain; `int(num)` is the floor there. -/
def number_to_words_indian (num : ℚ) : Option String :=
  if num = 0 then some "Zero Rupees Only"
  else
    let rupees : ℕ := (⌊num⌋).toNat
    let paise : ℕ := (roundTE ((num - (rupees : ℚ)) * 100)).toNat
    let crore := rupees / 10000000
    let lakh := (rupees % 10000000) / 100000
    let thousand := (rupees % 100000) / 1000
    let hundred := rupees % 1000
    do
      let r1 ← if crore > 0 then do
          let w ← convert_below_hundred crore
          pure [w ++ " Crore"]
        else pure []
      let r2 ← if lakh > 0 then do
          let w ← convert_below_hundred lakh
          pure [w ++ " Lakh"]
        else pure []
      let r3 ← if thousand > 0 then do
          let w ← convert_below_hundred thousand
          pure [w ++ " Thousand"]
        else pure []
      let r4 ← if hundred > 0 then do
          let w ← convert_below_thousand hundred
          pure [w]
        else pure []
      let words := " ".intercalate (r1 ++ r2 ++ r3 ++ r4) ++ " Rupees"
      if paise > 0 then do
        let p ← convert_below_hundred paise
        pure (words ++ " and " ++ p ++ " Paise" ++ " Only")
      else
        pure (words ++ " Only")

/-- `_two_digit_words` (`app/services/totals.py`). -/
def two_digit_words (value : ℕ) : Option String :=
  if value < 10 then wordsOnes.get? value
  else if value < 20 then wordsTeens.get? (value - 10)
  else do
    let t ← wordsTens.get? (value / 10)
    let o ← wordsOnes.get? (value % 10)
    pure (String.trim (t ++ " " ++ o))

def indianScale : List (ℕ × String) :=
  [(10000000, "Crore"), (100000, "Lakh"), (1000, "Thousand"), (100, "Hundred")]

/-- The `for divider, label in _INDIAN_SCALE` loop of
`app/services/totals.py::number_to_words_indian`. -/
def scaleLoop : List (ℕ × String) → ℕ → Option (List String × ℕ)
  | [], remaining => some ([], remaining)
  | (divider, label) :: rest, remaining =>
    let current := remaining / divider
    if current ≠ 0 then do
      let w ← if divider = 100 then wordsOnes.get? current else two_digit_words current
      let (ps, rem) ← scaleLoop rest (remaining % divider)
      pure ((w ++ " " ++ label) :: ps, rem)
    else
      scaleLoop rest remaining

/-- `number_to_words_indian` (`app/services/totals.py`). -/
def app_number_to_words_indian (amount : ℚ) : Option String :=
  if amount = 0 then some "Zero Rupees Only"
  else
    let rupees : ℕ := (⌊amount⌋).toNat
    let paise : ℕ := (roundTE ((amount - (rupees : ℚ)) * 100)).toNat
    do
      let (parts, remaining) ← scaleLoop indianScale rupees
      let parts ← if remaining ≠ 0 then do
          let w ← two_digit_words remaining
          pure (parts ++ [w])
        else pure parts
      let words := String.trim (" ".intercalate (parts.filter (· ≠ "")))
      let words := if words = "" then "Zero" else words
      let words := words ++ " Rupees"
      if paise ≠ 0 then do
        let pw ← two_digit_words paise
        pure (words ++ " and " ++ pw ++ " Paise" ++ " Only")
      else
        pure (words ++ " Only")

/-! ## Data model for line items and totals (`ai-backend/app/models/outputs.py`) -/

/-- `Item` (`ai-backend/app/models/outputs.py`); also the shape of
`document_models.Item`. -/
structure Item where
  description : String
  qty : ℚ
  unit_price : ℚ
  unit : String := "pcs"
  discount : ℚ := 0
  tax_rate : ℚ := 0
  hsn_sac : Option String := none
deriving Repr, DecidableEq

/-- `Totals` (`ai-backend/app/models/outputs.py`).  `amount_in_words` is
`none` when the words conversion raised. -/
structure Totals where
  subtotal : ℚ
  discount_total : ℚ
  tax_total : ℚ
  shipping : ℚ := 0
  round_off : ℚ := 0
  grand_total : ℚ
  amount_in_words : Option String := none
deriving Repr, DecidableEq

/-! ## Totals engine 1: `_calculate_totals`
(`ai-backend/app/services/output_processing.py`, lines 130-160) -/

def calculate_totals (items : List Item) (shipping : ℚ) : Totals :=
  let subtotal := (items.map (fun it => it.qty * it.unit_price)).sum
  let discount_total := (items.map (fun it => min it.discount (it.qty * it.unit_price))).sum
  let tax_total := (items.map (fun it =>
      max (it.qty * it.unit_price - min it.discount (it.qty * it.unit_price)) 0
        * (max it.tax_rate 0 / 100))).sum
  let subtotal := round2 subtotal
  let discount_total := round2 discount_total
  let tax_total := round2 tax_total
  let shipping := round2 shipping
  let pre_round := subtotal - discount_total + tax_total + shipping
  let rounded := roundTE pre_round
  let round_off := round2 ((rounded : ℚ) - pre_round)
  let grand_total := round2 (pre_round + round_off)
  { subtotal := subtotal, discount_total := discount_total, tax_total := tax_total,
    shipping := shipping, round_off := round_off, grand_total := grand_total,
    amount_in_words := number_to_words_indian grand_total }

/-! ## Totals engine 2: `compute_line_totals` / `compute_totals`
(`ai-backend/app/services/totals.py`, lines 63-107) — dict-shaped items -/

/-- The item dict manipulated by `ai-backend/app/services/totals.py` and
`repair.py` (fields read or written by those modules). -/
structure LineDict where
  description : String := "Item"
  qty : ℚ := 0
  unit_price : ℚ := 0
  discount : ℚ := 0
  tax_rate : ℚ := 0
  unit : String := "nos"
  line_total : ℚ := 0
  line_tax : ℚ := 0
  sno : ℕ := 0
deriving Repr, DecidableEq

def compute_line_totals (item : LineDict) : LineDict :=
  let line_total := item.qty * item.unit_price - item.discount
  let line_tax := line_total * (item.tax_rate / 100)
  { item with line_total := round2 line_total, line_tax := round2 line_tax }

/-- The totals dict returned by `ai-backend/app/services/totals.py::compute_totals`. -/
structure TotalsDict where
  subtotal : ℚ
  discount_total : ℚ
  tax_total : ℚ
  shipping : ℚ
  round_off : ℚ
  grand_total : ℚ
  currency : String
  amount_in_words : Option String
deriving Repr, DecidableEq

def compute_totals (items : List LineDict) (currency : String := "INR") : TotalsDict :=
  let subtotal := (items.map (·.line_total)).sum
  let discount_total := (items.map (·.discount)).sum
  let tax_total := (items.map (·.line_tax)).sum
  let shipping : ℚ := 0
  let grand_total0 := subtotal + tax_total + shipping
  let round_off := (roundTE grand_total0 : ℚ) - grand_total0
  let grand_total := (roundTE grand_total0 : ℚ)
  { subtotal := round2 subtotal, discount_total := round2 discount_total,
    tax_total := round2 tax_total, shipping := round2 shipping,
    round_off := round2 round_off, grand_total := grand_total,
    currency := currency, amount_in_words := number_to_words_indian grand_total }

/-! ## Totals engine 3: `compute_line` / `aggregate_totals` / `compute_totals`
(`app/services/totals.py`, lines 81-124) -/

def compute_line (item : Item) : ℚ × ℚ :=
  let line_total := max (item.qty * item.unit_price - item.discount) 0
  let line_tax := line_total * (item.tax_rate / 100)
  (round2 line_total, round2 line_tax)

def aggregate_totals (items : List Item) : ℚ × ℚ × ℚ :=
  let subtotal := (items.map (fun it => (compute_line it).1)).sum
  let discount_total := (items.map (·.discount)).sum
  let tax_total := (items.map (fun it => (compute_line it).2)).sum
  (round2 subtotal, round2 discount_total, round2 tax_total)

/-- The slice of `document_models.DocDraft` read by
`app/services/totals.py::compute_totals` (its items and the previous
totals block, from which only `shipping` is read). -/
structure AppDraft where
  items : List Item
  totals : Option Totals := none
deriving Repr, DecidableEq

def app_compute_totals (draft : AppDraft) : Totals :=
  let agg := aggregate_totals draft.items
  let subtotal := agg.1
  let discount_total := agg.2.1
  let tax_total := agg.2.2
  let shipping := match draft.totals with
    | some t => t.shipping
    | none => 0
  let preliminary_total := subtotal - discount_total + tax_total + shipping
  let rounded := roundTE preliminary_total
  let round_off := round2 ((rounded : ℚ) - preliminary_total)
  let grand_total := round2 (preliminary_total + round_off)
  { subtotal := subtotal, discount_total := discount_total, tax_total := tax_total,
    shipping := shipping, round_off := round_off, grand_total := grand_total,
    amount_in_words := app_number_to_words_indian grand_total }

/-! ## Two-decimal values and the Totals invariant -/

/-- A value that is an exact multiple of 1/100 (a whole number of paise). -/
def TwoDec (q : ℚ) : Prop := ∃ k : ℤ, q = (k : ℚ) / 100

theorem twoDec_round2 (q : ℚ) : TwoDec (round2 q) := ⟨roundTE (q * 100), rfl⟩

theorem TwoDec.intCast (n : ℤ) : TwoDec (n : ℚ) := ⟨100 * n, by push_cast; ring⟩

theorem TwoDec.zero : TwoDec (0 : ℚ) := ⟨0, by norm_num⟩

theorem TwoDec.add {a b : ℚ} (ha : TwoDec a) (hb : TwoDec b) : TwoDec (a + b) := by
  obtain ⟨m, rfl⟩ := ha
  obtain ⟨n, rfl⟩ := hb
  exact ⟨m + n, by push_cast; ring⟩

theorem TwoDec.sub {a b : ℚ} (ha : TwoDec a) (hb : TwoDec b) : TwoDec (a - b) := by
  obtain ⟨m, rfl⟩ := ha
  obtain ⟨n, rfl⟩ := hb
  exact ⟨m - n, by push_cast; ring⟩

theorem twoDec_sum {l : List ℚ} (h : ∀ x ∈ l, TwoDec x) : TwoDec l.sum := by
  induction l with
  | nil => exact TwoDec.zero
  | cons a t ih =>
    rw [List.sum_cons]
    exact (h a (List.mem_cons_self a t)).add (ih fun x hx => h x (List.mem_cons_of_mem a hx))

theorem round2_eq_self {q : ℚ} (h : TwoDec q) : round2 q = q := by
  obtain ⟨k, rfl⟩ := h
  rw [round2]
  have h100 : ((k : ℚ) / 100) * 100 = (k : ℚ) := by field_simp
  rw [h100, roundTE_intCast]

theorem round2_intCast (n : ℤ) : round2 (n : ℚ) = n := round2_eq_self (TwoDec.intCast n)

theorem round2_nonneg {q : ℚ} (h : 0 ≤ q) : 0 ≤ round2 q := by
  rw [round2]
  have : (0 : ℤ) ≤ roundTE (q * 100) := roundTE_nonneg (by positivity)
  positivity

/-- The Totals invariant of spec §8:
`round(subtotal − discount_total + tax_total + shipping + round_off, 2) == grand_total`
and `grand_total` is integral. -/
def totalsInvariant (t : Totals) : Prop :=
  round2 (t.subtotal - t.discount_total + t.tax_total + t.shipping + t.round_off)
      = t.grand_total
  ∧ ∃ n : ℤ, t.grand_total = (n : ℚ)

theorem calculate_totals_invariant (items : List Item) (shipping : ℚ) :
    totalsInvariant (calculate_totals items shipping) := by
  constructor
  · rfl
  · exact ⟨_, grand_eq_roundTE _⟩

theorem app_compute_totals_invariant (draft : AppDraft) :
    totalsInvariant (app_compute_totals draft) := by
  constructor
  · rfl
  · exact ⟨_, grand_eq_roundTE _⟩

/-- Field-level description of `compute_totals` (`ai-backend/app/services/totals.py`)
when its items carry two-decimal `line_total`/`line_tax` values, as produced by
`compute_line_totals`.  Its `subtotal` is already net of per-line discounts, so
the spec's invariant only holds with the `− discount_total` term dropped. -/
theorem compute_totals_line_fields (items : List LineDict) (c : String) :
    round2 ((compute_totals (items.map compute_line_totals) c).subtotal
        + (compute_totals (items.map compute_line_totals) c).tax_total
        + (compute_totals (items.map compute_line_totals) c).shipping
        + (compute_totals (items.map compute_line_totals) c).round_off)
      = (compute_totals (items.map compute_line_totals) c).grand_total
    ∧ ((compute_totals (items.map compute_line_totals) c).discount_total = 0 →
        round2 ((compute_totals (items.map compute_line_totals) c).subtotal
            - (compute_totals (items.map compute_line_totals) c).discount_total
            + (compute_totals (items.map compute_line_totals) c).tax_total
            + (compute_totals (items.map compute_line_totals) c).shipping
            + (compute_totals (items.map compute_line_totals) c).round_off)
          = (compute_totals (items.map compute_line_totals) c).grand_total)
    ∧ ∃ n : ℤ, (compute_totals (items.map compute_line_totals) c).grand_total = (n : ℚ) := by
  set L := items.map compute_line_totals with hL
  have hSd : TwoDec ((L.map (·.line_total)).sum) := by
    apply twoDec_sum
    intro x hx
    rw [hL, List.map_map, List.mem_map] at hx
    obtain ⟨i, _, rfl⟩ := hx
    exact twoDec_round2 _
  have hTd : TwoDec ((L.map (·.line_tax)).sum) := by
    apply twoDec_sum
    intro x hx
    rw [hL, List.map_map, List.mem_map] at hx
    obtain ⟨i, _, rfl⟩ := hx
    exact twoDec_round2 _
  set S := (L.map (·.line_total)).sum with hS
  set T := (L.map (·.line_tax)).sum with hT
  set R : ℤ := roundTE (S + T + 0) with hR
  have hsub : (compute_totals L c).subtotal = S := round2_eq_self hSd
  have htax : (compute_totals L c).tax_total = T := round2_eq_self hTd
  have hship : (compute_totals L c).shipping = 0 := by
    show round2 0 = 0
    exact round2_eq_self TwoDec.zero
  have hroff : (compute_totals L c).round_off = (R : ℚ) - (S + T + 0) := by
    show round2 ((R : ℚ) - (S + T + 0)) = _
    exact round2_eq_self ((TwoDec.intCast R).sub ((hSd.add hTd).add TwoDec.zero))
  have hgrand : (compute_totals L c).grand_total = (R : ℚ) := rfl
  have hkey : round2 (S + T + 0 + ((R : ℚ) - (S + T + 0))) = (R : ℚ) := by
    have harg : S + T + 0 + ((R : ℚ) - (S + T + 0)) = (R : ℚ) := by ring
    rw [harg, round2_intCast]
  refine ⟨?_, ?_, ⟨R, hgrand⟩⟩
  · rw [hsub, htax, hship, hroff, hgrand]
    exact hkey
  · intro hd
    rw [hsub, htax, hship, hroff, hgrand, hd]
    rw [show S - 0 + T + 0 + ((R : ℚ) - (S + T + 0)) = S + T + 0 + ((R : ℚ) - (S + T + 0)) by ring]
    exact hkey

/-- **C2 (amended).** The Totals invariant
`round(subtotal − discount_total + tax_total + shipping + round_off, 2) == grand_total`
with an integral `grand_total` holds for every Totals record produced by
`_calculate_totals` (output_processing) and by the `app`-tree `compute_totals`;
for the `ai-backend` `compute_totals` — whose `subtotal` is already net of
per-line discounts — the record (over items carrying `compute_line_totals`
values) satisfies it only when its `discount_total` is `0`. -/
theorem claim_C2_amended :
    (∀ (items : List Item) (shipping : ℚ), totalsInvariant (calculate_totals items shipping))
    ∧ (∀ draft : AppDraft, totalsInvariant (app_compute_totals draft))
    ∧ (∀ (items : List LineDict) (c : String),
        (compute_totals (items.map compute_line_totals) c).discount_total = 0 →
        round2 ((compute_totals (items.map compute_line_totals) c).subtotal
            - (compute_totals (items.map compute_line_totals) c).discount_total
            + (compute_totals (items.map compute_line_totals) c).tax_total
            + (compute_totals (items.map compute_line_totals) c).shipping
            + (compute_totals (items.map compute_line_totals) c).round_off)
          = (compute_totals (items.map compute_line_totals) c).grand_total
        ∧ ∃ n : ℤ, (compute_totals (items.map compute_line_totals) c).grand_total = (n : ℚ)) :=
  ⟨calculate_totals_invariant, app_compute_totals_invariant, fun items c hd =>
    ⟨(compute_totals_line_fields items c).2.1 hd, (compute_totals_line_fields items c).2.2⟩⟩

/-- A discounted line item (qty 1 at 100 with a 10 discount). -/
def c2Item : LineDict :=
  { description := "Website redesign", qty := 1, unit_price := 100, discount := 10, tax_rate := 0 }

/-- **C2 (counterexample).** For the `ai-backend` `compute_totals`, the claimed
relation fails on one discounted item: the record reports `subtotal = 90`
(already net of the discount), `discount_total = 10` and `grand_total = 90`, so
`round(subtotal − discount_total + tax_total + shipping + round_off, 2) = 80 ≠ 90`. -/
theorem claim_C2_counterexample :
    round2 ((compute_totals [compute_line_totals c2Item] "INR").subtotal
        - (compute_totals [compute_line_totals c2Item] "INR").discount_total
        + (compute_totals [compute_line_totals c2Item] "INR").tax_total
        + (compute_totals [compute_line_totals c2Item] "INR").shipping
        + (compute_totals [compute_line_totals c2Item] "INR").round_off)
      ≠ (compute_totals [compute_line_totals c2Item] "INR").grand_total := by
  with_unfolding_all decide

/-- The spec §8 totals-scenario item, with a nonzero discount added. -/
def c2WItem : Item :=
  { description := "Website redesign", qty := 2, unit_price := 50000, discount := 1000,
    tax_rate := 18 }

/-- An undiscounted item for the `ai-backend` engine. -/
def c2NoDiscItem : LineDict :=
  { description := "Service", qty := 1, unit_price := 50000, tax_rate := 18 }

/-- **C2 (witness).** `claim_C2_amended` applied at concrete inputs, with the
`discount_total = 0` hypothesis of the third conjunct discharged by evaluation. -/
theorem claim_C2_witness :
    totalsInvariant (calculate_totals [c2WItem] (5/2))
    ∧ totalsInvariant (app_compute_totals { items := [c2WItem] })
    ∧ (compute_totals [compute_line_totals c2NoDiscItem] "INR").discount_total = 0
    ∧ (round2 ((compute_totals [compute_line_totals c2NoDiscItem] "INR").subtotal
          - (compute_totals [compute_line_totals c2NoDiscItem] "INR").discount_total
          + (compute_totals [compute_line_totals c2NoDiscItem] "INR").tax_total
          + (compute_totals [compute_line_totals c2NoDiscItem] "INR").shipping
          + (compute_totals [compute_line_totals c2NoDiscItem] "INR").round_off)
        = (compute_totals [compute_line_totals c2NoDiscItem] "INR").grand_total
      ∧ ∃ n : ℤ, (compute_totals [compute_line_totals c2NoDiscItem] "INR").grand_total = (n : ℚ)) :=
  ⟨claim_C2_amended.1 [c2WItem] (5/2),
   claim_C2_amended.2.1 { items := [c2WItem] },
   by with_unfolding_all decide,
   claim_C2_amended.2.2 [c2NoDiscItem] "INR" (by with_unfolding_all decide)⟩

/-- `computeLineTotals` exactly as worded by spec §4.2 — "lineTotal =
max(qty*unitPrice − discount, 0) rounded to 2 decimals, lineTax = lineTotal *
taxRate/100 rounded to 2 decimals" — for the refinement comparison. -/
def computeLineTotals_spec (item : Item) : ℚ × ℚ :=
  let lineTotal := max (item.qty * item.unit_price - item.discount) 0
  (round2 lineTotal, round2 (lineTotal * (item.tax_rate / 100)))

/-- **C6 (amended).** The `app`-tree `compute_line` satisfies the spec's
per-line contract, clamping at 0 as stated; the `ai-backend`
`compute_line_totals` omits the clamp (see the counterexample), so only the
former realises the claimed contract. -/
theorem claim_C6_amended :
    ∀ item : Item,
      compute_line item = computeLineTotals_spec item ∧ 0 ≤ (compute_line item).1 :=
  fun _ => ⟨rfl, round2_nonneg (le_max_right _ _)⟩

/-- One item whose discount (20) exceeds its gross (1 × 10). -/
def c6Item : LineDict :=
  { description := "svc", qty := 1, unit_price := 10, discount := 20, tax_rate := 0 }

/-- **C6 (counterexample).** `compute_line_totals`
(`ai-backend/app/services/totals.py`) computes `qty*unit_price − discount`
without the claimed `max(…, 0)` clamp, so when the discount exceeds the gross
the line total is negative: here `1 × 10 − 20 = −10 < 0`. -/
theorem claim_C6_counterexample :
    (compute_line_totals c6Item).line_total = -10
    ∧ (compute_line_totals c6Item).line_total < 0 := by
  with_unfolding_all decide

/-- **C8.** `number_to_words_indian` is not total on the claimed domain: at one
hundred crore (10^9) rupees the crore component is 100, and both
implementations index `tens[100 // 10]` past the end of the 10-element tens
table, raising `IndexError` instead of returning a words string. -/
theorem claim_C8_crash :
    number_to_words_indian 1000000000 = none
    ∧ app_number_to_words_indian 1000000000 = none := by
  with_unfolding_all decide

/-! ## Billing-plan normalization
(`_normalise_billing_plan`, `ai-backend/app/services/output_processing.py`,
lines 339-361) -/

/-- Python truthiness of an optional string (`None` and `""` are falsy). -/
def strTruthy : Option String → Bool
  | none => false
  | some s => !s.isEmpty

/-- Python's `a or b` for an optional string `a` and a definite default `b`. -/
def pyOrStr (a : Option String) (b : String) : String :=
  if strTruthy a then a.getD b else b

/-- A raw billing-plan part dict: `percent` holds the `_to_int`-coerced value
(absent, null or unparseable ↦ `none`, read back with default 0). -/
structure RawPart where
  when : Option String := none
  percent : Option ℤ := none
deriving Repr, DecidableEq

def billingSum (parts : List RawPart) : ℤ :=
  (parts.map (fun p => p.percent.getD 0)).sum

def defaultBillingPlan : List RawPart :=
  [{ when := some "Project kickoff", percent := some 40 },
   { when := some "Midway", percent := some 40 },
   { when := some "Completion", percent := some 20 }]

/-- The `total == 0` branch: every part gets `round(100 / len(parts))`. -/
def equalisedParts (parts : List RawPart) : List RawPart :=
  let equal : ℤ := if parts.isEmpty then 100 else roundTE ((100 : ℚ) / (parts.length : ℚ))
  parts.enum.map fun pr =>
    { when := some (pyOrStr pr.2.when s!"Milestone {pr.1 + 1}"), percent := some equal }

/-- The rescaling loop: every part except the last is scaled proportionally
(clamped at 0); the last part absorbs the remainder. -/
def scaleBillingParts : List RawPart → ℤ → ℤ → ℕ → List RawPart
  | [], _, _, _ => []
  | [p], remainder, _, idx =>
      [{ when := some (pyOrStr p.when s!"Milestone {idx + 1}"), percent := some remainder }]
  | p :: q :: rest, remainder, total, idx =>
      let percent := max (roundTE (((p.percent.getD 0 : ℤ) : ℚ) * 100 / (total : ℚ))) 0
      { when := some (pyOrStr p.when s!"Milestone {idx + 1}"), percent := some percent }
        :: scaleBillingParts (q :: rest) (remainder - percent) total (idx + 1)

/-- The final `if total != 100 and parts:` rescale step. -/
def rescaleIfNeeded (parts : List RawPart) (total : ℤ) : List RawPart :=
  if total ≠ 100 ∧ ¬parts.isEmpty then scaleBillingParts parts 100 total 0 else parts

def normalise_billing_plan (raw_parts : Option (List RawPart)) : List RawPart :=
  let parts0 := raw_parts.getD []
  let parts1 := if parts0.isEmpty then defaultBillingPlan else parts0
  if billingSum parts1 = 0 then
    rescaleIfNeeded (equalisedParts parts1) (billingSum (equalisedParts parts1))
  else
    rescaleIfNeeded parts1 (billingSum parts1)

theorem billingSum_cons (p : RawPart) (l : List RawPart) :
    billingSum (p :: l) = p.percent.getD 0 + billingSum l := by
  simp [billingSum]

theorem scaleBillingParts_sum :
    ∀ (l : List RawPart) (remainder total : ℤ) (idx : ℕ), l ≠ [] →
      billingSum (scaleBillingParts l remainder total idx) = remainder := by
  intro l
  induction l with
  | nil => intro _ _ _ h; exact absurd rfl h
  | cons p rest ih =>
    intro remainder total idx _
    cases rest with
    | nil => simp [scaleBillingParts, billingSum]
    | cons q rest' =>
      rw [show scaleBillingParts (p :: q :: rest') remainder total idx =
          { when := some (pyOrStr p.when s!"Milestone {idx + 1}"),
            percent := some (max (roundTE (((p.percent.getD 0 : ℤ) : ℚ) * 100 / (total : ℚ))) 0) }
          :: scaleBillingParts (q :: rest')
              (remainder - max (roundTE (((p.percent.getD 0 : ℤ) : ℚ) * 100 / (total : ℚ))) 0)
              total (idx + 1) from rfl]
      rw [billingSum_cons, ih _ total (idx + 1) (by simp)]
      simp only [Option.getD_some]
      ring

theorem equalisedParts_ne_nil {parts : List RawPart} (h : parts ≠ []) :
    equalisedParts parts ≠ [] := by
  cases parts with
  | nil => exact absurd rfl h
  | cons a l => simp [equalisedParts, List.enum_cons]

theorem rescaleIfNeeded_sum (parts : List RawPart) (total : ℤ) (h : parts ≠ [])
    (hs : billingSum parts = total) : billingSum (rescaleIfNeeded parts total) = 100 := by
  have hie : parts.isEmpty = false := by
    cases parts with
    | nil => exact absurd rfl h
    | cons a l => rfl
  unfold rescaleIfNeeded
  by_cases h100 : total = 100
  · rw [if_neg (by simp [h100])]
    rw [hs, h100]
  · rw [if_pos (by simp [h100, hie])]
    exact scaleBillingParts_sum _ 100 _ 0 h

theorem normalise_billing_plan_sum (parts : List RawPart) (h : parts ≠ []) :
    billingSum (normalise_billing_plan (some parts)) = 100 := by
  have hie : parts.isEmpty = false := by
    cases parts with
    | nil => exact absurd rfl h
    | cons a l => rfl
  unfold normalise_billing_plan
  simp only [Option.getD_some, hie, Bool.false_eq_true, if_false]
  by_cases h0 : billingSum parts = 0
  · rw [if_pos h0]
    exact rescaleIfNeeded_sum _ _ (equalisedParts_ne_nil h) rfl
  · rw [if_neg h0]
    exact rescaleIfNeeded_sum _ _ h rfl

/-- **C3.** For every raw billing-plan list of 1 to 10 parts with arbitrary
(coerced) percent values — all-zero and non-summing included — the plan
returned by `_normalise_billing_plan` has percentages summing to exactly 100
(the last part absorbs the rescaling remainder). -/
theorem claim_C3_billing_sum (raw : List RawPart) (h1 : 1 ≤ raw.length)
    (_h2 : raw.length ≤ 10) :
    billingSum (normalise_billing_plan (some raw)) = 100 :=
  normalise_billing_plan_sum raw (by
    intro hnil
    rw [hnil] at h1
    simp at h1)

/-- Two parts summing to 66, forcing the rescale branch. -/
def c3Parts : List RawPart :=
  [{ when := some "Kickoff", percent := some 33 },
   { when := some "Final", percent := some 33 }]

/-- **C3 (witness).** `claim_C3_billing_sum` at a concrete non-summing plan. -/
theorem claim_C3_witness :
    1 ≤ c3Parts.length ∧ c3Parts.length ≤ 10
    ∧ billingSum (normalise_billing_plan (some c3Parts)) = 100 :=
  ⟨by decide, by decide, claim_C3_billing_sum c3Parts (by decide) (by decide)⟩

/-- **C9.** When the raw parts already sum to exactly 100 (and the list is
non-empty), `_normalise_billing_plan` returns them unchanged — no per-part
range check is applied, so percent values outside 0–100 pass through. -/
theorem claim_C9_passthrough (parts : List RawPart) (hne : parts ≠ [])
    (hsum : billingSum parts = 100) :
    normalise_billing_plan (some parts) = parts := by
  have hie : parts.isEmpty = false := by
    cases parts with
    | nil => exact absurd rfl hne
    | cons a l => rfl
  have h0 : ¬(billingSum parts = 0) := by
    rw [hsum]
    omega
  unfold normalise_billing_plan
  simp only [Option.getD_some, hie, Bool.false_eq_true, if_false]
  rw [if_neg h0]
  unfold rescaleIfNeeded
  rw [if_neg (by simp [hsum])]

/-- A plan whose parts sum to 100 but hold out-of-range percents (−50, 150). -/
def c9Parts : List RawPart :=
  [{ when := some "Advance", percent := some (-50) },
   { when := some "Delivery", percent := some 150 }]

/-- **C9 (witness).** `claim_C9_passthrough` at a 100-summing plan containing a
negative percent, which survives to the output plan unchanged. -/
theorem claim_C9_witness :
    c9Parts ≠ [] ∧ billingSum c9Parts = 100
    ∧ normalise_billing_plan (some c9Parts) = c9Parts
    ∧ (c9Parts.map (fun p => p.percent.getD 0)).any (fun z => decide (z < 0)) = true :=
  ⟨by decide, by decide, claim_C9_passthrough c9Parts (by decide) (by decide), by decide⟩

/-! ## Request model (`ai-backend/app/models/inputs.py` and `generation.py`)

Dates are embedded as day numbers (`ℤ`); `date.today()` is an injected
parameter.  A dict field holding `None`, an absent key, or (for dates and
numbers) an unparseable value are all embedded as `none` — the code treats
them alike on every path the claims touch. -/

abbrev Date := ℤ

structure Address where
  line1 : Option String := none
  line2 : Option String := none
  city : Option String := none
  state : Option String := none
  state_code : Option String := none
  postal_code : Option String := none
  country : String := "India"
  country_code : String := "IN"
deriving Repr, DecidableEq

structure BankDetails where
  bank_name : Option String := none
  branch : Option String := none
  account_name : Option String := none
  account_no : Option String := none
  ifsc : Option String := none
  swift : Option String := none
  iban : Option String := none
  upi_id : Option String := none
deriving Repr, DecidableEq

structure TaxPreferences where
  place_of_supply : Option String := none
  reverse_charge : Bool := false
  e_invoice : Bool := false
deriving Repr, DecidableEq

structure Branding where
  logo_url : Option String := none
  accent_color : Option String := none
  footer_text : Option String := none
deriving Repr, DecidableEq

structure TOPartyInput where
  name : String
  contact_person : Option String := none
  email : Option String := none
  phone : Option String := none
  website : Option String := none
  gstin : Option String := none
  pan : Option String := none
  notes : Option String := none
  billing_address : Option Address := none
  shipping_address : Option Address := none
  place_of_supply : Option String := none
deriving Repr, DecidableEq

structure FROMPartyInput where
  name : String
  contact_person : Option String := none
  email : Option String := none
  phone : Option String := none
  website : Option String := none
  gstin : Option String := none
  pan : Option String := none
  notes : Option String := none
  cin : Option String := none
  billing_address : Option Address := none
  bank : Option BankDetails := none
  tax_prefs : Option TaxPreferences := none
  branding : Option Branding := none
deriving Repr, DecidableEq

structure HintDocMeta where
  doc_no : Option String := none
  po_no : Option String := none
  ref_no : Option String := none
deriving Repr, DecidableEq

structure HintDates where
  issue_date : Option Date := none
  due_date : Option Date := none
  valid_till : Option Date := none
deriving Repr, DecidableEq

structure HintItem where
  description : Option String := none
  hsn_sac : Option String := none
  qty : Option ℚ := none
  unit : Option String := none
  unit_price : Option ℚ := none
  discount : Option ℚ := none
  tax_rate : Option ℚ := none
deriving Repr, DecidableEq

structure HintTerms where
  title : Option String := none
  bullets : Option (List String) := none
deriving Repr, DecidableEq

structure HintPayment where
  mode : Option String := none
  instructions : Option String := none
  upi_deeplink : Option String := none
deriving Repr, DecidableEq

structure GenerationHints where
  doc_meta : Option HintDocMeta := none
  dates : Option HintDates := none
  items : Option (List HintItem) := none
  terms : Option HintTerms := none
  payment : Option HintPayment := none
deriving Repr, DecidableEq

/-- `GenerationRequest`: the `from`/`to` party fields are named here by the
`seller`/`buyer` properties through which all the normalizer code reads them. -/
structure GenerationRequest where
  buyer : TOPartyInput
  seller : FROMPartyInput
  currency : String := "INR"
  locale : String := "en-IN"
  requirement : String
  hints : Option GenerationHints := none
  workspace_id : Option String := none
deriving Repr, DecidableEq

/-! ## Raw LLM payload shapes (the dicts read by `output_processing.py`) -/

structure RawItem where
  description : Option String := none
  hsn_sac : Option String := none
  qty : Option ℚ := none
  unit : Option String := none
  unit_price : Option ℚ := none
  discount : Option ℚ := none
  tax_rate : Option ℚ := none
deriving Repr, DecidableEq

structure RawTotals where
  subtotal : Option ℚ := none
  discount_total : Option ℚ := none
  tax_total : Option ℚ := none
  shipping : Option ℚ := none
  round_off : Option ℚ := none
  grand_total : Option ℚ := none
  currency : Option String := none
  amount_in_words : Option String := none
deriving Repr, DecidableEq

structure RawDates where
  issue_date : Option Date := none
  due_date : Option Date := none
  valid_till : Option Date := none
deriving Repr, DecidableEq

structure RawParty where
  name : Option String := none
  address : Option String := none
  email : Option String := none
  phone : Option String := none
  gstin : Option String := none
  pan : Option String := none
deriving Repr, DecidableEq

structure RawDocMeta where
  doc_no : Option String := none
  ref_no : Option String := none
  po_no : Option String := none
deriving Repr, DecidableEq

structure RawTerms where
  title : Option String := none
  bullets : Option (List String) := none
deriving Repr, DecidableEq

structure RawPayment where
  mode : Option String := none
  upi_deeplink : Option String := none
  instructions : Option String := none
deriving Repr, DecidableEq

structure RawGst where
  mode : Option String := none
  cgst : Option ℚ := none
  sgst : Option ℚ := none
  igst : Option ℚ := none
  place_of_supply : Option String := none
deriving Repr, DecidableEq

/-- The raw quotation/invoice payload dict (a non-dict payload is the
all-`none` record).  Raw list entries that are not dicts are `none`. -/
structure RawDoc where
  doc_type : Option String := none
  currency : Option String := none
  locale : Option String := none
  seller : Option RawParty := none
  buyer : Option RawParty := none
  doc_meta : Option RawDocMeta := none
  dates : Option RawDates := none
  items : Option (List (Option RawItem)) := none
  totals : Option RawTotals := none
  terms : Option RawTerms := none
  notes : Option String := none
  payment : Option RawPayment := none
  gst : Option RawGst := none
deriving Repr, DecidableEq

/-! ## Output document model (`ai-backend/app/models/outputs.py`) -/

structure Party where
  name : String
  address : Option String := none
  email : Option String := none
  phone : Option String := none
  gstin : Option String := none
  pan : Option String := none
deriving Repr, DecidableEq

structure DocMeta where
  doc_no : Option String := none
  ref_no : Option String := none
  po_no : Option String := none
deriving Repr, DecidableEq

structure Terms where
  title : String := "Terms & Conditions"
  bullets : List String
deriving Repr, DecidableEq

structure Payment where
  mode : Option String := none
  upi_deeplink : Option String := none
  instructions : Option String := none
deriving Repr, DecidableEq

structure GSTBreakup where
  mode : Option String := none
  cgst : ℚ := 0
  sgst : ℚ := 0
  igst : ℚ := 0
  place_of_supply : Option String := none
deriving Repr, DecidableEq

structure DatesQuotationOut where
  issue_date : Date
  valid_till : Option Date := none
deriving Repr, DecidableEq

structure DatesInvoiceOut where
  issue_date : Date
  due_date : Option Date := none
deriving Repr, DecidableEq

structure QuotationOutput where
  doc_type : String
  currency : String
  locale : String
  seller : Party
  buyer : Party
  doc_meta : DocMeta
  dates : DatesQuotationOut
  items : List Item
  totals : Totals
  terms : Terms
  notes : Option String
  payment : Option Payment
deriving Repr, DecidableEq

structure TaxInvoiceOutput where
  doc_type : String
  currency : String
  locale : String
  seller : Party
  buyer : Party
  doc_meta : DocMeta
  dates : DatesInvoiceOut
  items : List Item
  totals : Totals
  terms : Terms
  payment : Option Payment
  gst : Option GSTBreakup
deriving Repr, DecidableEq

/-! ## Normalizer helpers (`ai-backend/app/services/output_processing.py`) -/

/-- Python's `a or b` on two optional strings. -/
def pyOrOpt (a b : Option String) : Option String :=
  if strTruthy a then a else b

def DEFAULT_TERMS : List String :=
  ["Prices exclusive of applicable taxes unless stated otherwise",
   "Payment terms as per agreement"]

/-- `_format_address`. -/
def format_address (a : Option Address) : Option String :=
  match a with
  | none => none
  | some ad =>
    let parts := [ad.line1, ad.line2, ad.city, ad.state, ad.postal_code, some ad.country]
    let formatted := ", ".intercalate ((parts.filterMap id).filter (fun s => !s.isEmpty))
    if formatted.isEmpty then none else some formatted

/-- The duck-typed `fallback` argument of `_ensure_party`
(`getattr(fallback, field, None)` on a seller or buyer profile). -/
structure PartyFallback where
  name : String
  billing_address : Option Address
  shipping_address : Option Address
  email : Option String
  phone : Option String
  gstin : Option String
  pan : Option String
deriving Repr, DecidableEq

def fallbackOfSeller (s : FROMPartyInput) : PartyFallback :=
  { name := s.name, billing_address := s.billing_address, shipping_address := none,
    email := s.email, phone := s.phone, gstin := s.gstin, pan := s.pan }

def fallbackOfBuyer (b : TOPartyInput) : PartyFallback :=
  { name := b.name, billing_address := b.billing_address,
    shipping_address := b.shipping_address,
    email := b.email, phone := b.phone, gstin := b.gstin, pan := b.pan }

/-- `_ensure_party`. -/
def ensure_party (raw : Option RawParty) (fb : PartyFallback) : Party :=
  let payload := raw.getD {}
  let address_source := match fb.billing_address with
    | some a => some a
    | none => fb.shipping_address
  { name := pyOrStr payload.name fb.name,
    address := pyOrOpt payload.address (format_address address_source),
    email := pyOrOpt payload.email fb.email,
    phone := pyOrOpt payload.phone fb.phone,
    gstin := pyOrOpt payload.gstin fb.gstin,
    pan := pyOrOpt payload.pan fb.pan }

/-- `_ensure_terms`. -/
def ensure_terms (raw : Option RawTerms) (hints : Option HintTerms) : Terms :=
  let source := raw.getD {}
  let titleFallback := match hints with
    | some h => if strTruthy h.title then h.title.getD "Terms & Conditions"
                else "Terms & Conditions"
    | none => "Terms & Conditions"
  let bulletsFallback := match hints with
    | some h => match h.bullets with
      | some hb => if hb.isEmpty then DEFAULT_TERMS else hb
      | none => DEFAULT_TERMS
    | none => DEFAULT_TERMS
  let bullets := match source.bullets with
    | some bs => if bs.isEmpty then bulletsFallback else bs
    | none => bulletsFallback
  { title := pyOrStr source.title titleFallback, bullets := bullets }

/-- A hint item dumped with `exclude_none=True` into a seed dict. -/
def hintToSeed (h : HintItem) : RawItem :=
  { description := h.description, hsn_sac := h.hsn_sac, qty := h.qty, unit := h.unit,
    unit_price := h.unit_price, discount := h.discount, tax_rate := h.tax_rate }

/-- `_ensure_items`. -/
def ensure_items (raw_items : Option (List (Option RawItem)))
    (hints : Option (List HintItem)) (request : GenerationRequest) : List Item :=
  let seed : List RawItem := match raw_items with
    | some l => l.map (fun o => o.getD {})
    | none => []
  let seed := if seed.isEmpty then (hints.getD []).map hintToSeed else seed
  let seed := if seed.isEmpty then
      [{ description := some (pyOrStr (some request.requirement.trim) "Professional services"),
         qty := some 1, unit_price := some 0, unit := some "pcs",
         discount := some 0, tax_rate := some 0 }]
    else seed
  seed.map fun entry =>
    let qty0 := max (entry.qty.getD 1) 0
    let qty := if qty0 = 0 then 1 else qty0
    { description := pyOrStr entry.description (pyOrStr (some request.requirement) "Line item"),
      qty := qty,
      unit_price := max (entry.unit_price.getD 0) 0,
      unit := pyOrStr entry.unit "pcs",
      discount := max (entry.discount.getD 0) 0,
      tax_rate := max (entry.tax_rate.getD 0) 0,
      hsn_sac := if strTruthy entry.hsn_sac then entry.hsn_sac else none }

/-- `_resolve_issue_date` (`date.today()` is the `today` parameter). -/
def resolve_issue_date (request : GenerationRequest) (raw_dates : Option RawDates)
    (today : Date) : Date :=
  match raw_dates.bind RawDates.issue_date with
  | some v => v
  | none =>
    match request.hints.bind GenerationHints.dates with
    | some hd => hd.issue_date.getD today
    | none => today

/-- `_resolve_valid_till`. -/
def resolve_valid_till (issue_date : Date) (request : GenerationRequest)
    (raw_dates : Option RawDates) : Date :=
  match raw_dates.bind RawDates.valid_till with
  | some v => v
  | none =>
    match request.hints.bind GenerationHints.dates with
    | some hd => hd.valid_till.getD (issue_date + 15)
    | none => issue_date + 15

/-- `_resolve_due_date`. -/
def resolve_due_date (issue_date : Date) (request : GenerationRequest)
    (raw_dates : Option RawDates) : Date :=
  match raw_dates.bind RawDates.due_date with
  | some v => v
  | none =>
    match request.hints.bind GenerationHints.dates with
    | some hd => hd.due_date.getD (issue_date + 7)
    | none => issue_date + 7

/-- `_ensure_doc_meta`; `todayStr` stands for `f"{date.today():%Y%m%d}"`. -/
def ensure_doc_meta (raw : Option RawDocMeta) (request : GenerationRequest)
    (require_doc_no : Bool) (pfx : String) (todayStr : String) : DocMeta :=
  let hintsMeta : HintDocMeta := (request.hints.bind GenerationHints.doc_meta).getD {}
  let data := raw.getD {}
  let merged : RawDocMeta :=
    { doc_no := data.doc_no <|> hintsMeta.doc_no,
      ref_no := data.ref_no <|> hintsMeta.ref_no,
      po_no := data.po_no <|> hintsMeta.po_no }
  let doc_no := if require_doc_no ∧ ¬strTruthy merged.doc_no
    then some (pfx ++ "-" ++ todayStr) else merged.doc_no
  { doc_no := doc_no, ref_no := merged.ref_no, po_no := merged.po_no }

/-- `Payment.model_validate`: `none` when the `mode` pattern
`^(UPI|BANK_TRANSFER|OTHER)$` rejects the payload. -/
def payment_validate (p : RawPayment) : Option Payment :=
  match p.mode with
  | some s =>
    if s = "UPI" ∨ s = "BANK_TRANSFER" ∨ s = "OTHER" then
      some { mode := some s, upi_deeplink := p.upi_deeplink, instructions := p.instructions }
    else none
  | none => some { mode := none, upi_deeplink := p.upi_deeplink, instructions := p.instructions }

/-- `_ensure_payment`: outer `none` = a `ValidationError` escapes; inner `none`
= no payment block. -/
def ensure_payment (raw : Option RawPayment) (request : GenerationRequest) :
    Option (Option Payment) :=
  let data := raw.getD {}
  let data := match request.hints.bind GenerationHints.payment with
    | some hp =>
      let d1 := if strTruthy hp.mode ∧ data.mode.isNone then { data with mode := hp.mode } else data
      if strTruthy hp.instructions ∧ ¬strTruthy d1.instructions
        then { d1 with instructions := hp.instructions } else d1
    | none => data
  if data.mode.isNone && data.upi_deeplink.isNone && data.instructions.isNone then some none
  else (payment_validate data).map some

/-- `GSTBreakup.model_validate`: `none` when the `mode` pattern
`^(INTRA|INTER)$` rejects the payload; the float coercion defaults the
numeric fields to 0. -/
def gst_validate (mode : Option String) (cgst sgst igst : Option ℚ)
    (pos : Option String) : Option GSTBreakup :=
  match mode with
  | some s =>
    if s = "INTRA" ∨ s = "INTER" then
      some { mode := mode, cgst := cgst.getD 0, sgst := sgst.getD 0,
             igst := igst.getD 0, place_of_supply := pos }
    else none
  | none => some { mode := none, cgst := cgst.getD 0, sgst := sgst.getD 0,
                   igst := igst.getD 0, place_of_supply := pos }

/-- The `place_of_supply` resolution step of `_ensure_gst`. -/
def ensure_gst_pos (data : RawGst) (request : GenerationRequest) : Option String :=
  if ¬strTruthy data.place_of_supply then
    match request.seller.tax_prefs with
    | some tp => if strTruthy tp.place_of_supply then tp.place_of_supply
                 else data.place_of_supply
    | none => data.place_of_supply
  else data.place_of_supply

/-- The `mode` derivation step of `_ensure_gst`. -/
def ensure_gst_mode (data : RawGst) (pos : Option String)
    (request : GenerationRequest) : Option String :=
  if ¬strTruthy data.mode ∧ strTruthy pos ∧ strTruthy request.buyer.place_of_supply
  then some (if pos = request.buyer.place_of_supply then "INTRA" else "INTER")
  else data.mode

/-- The `base` construction and `any(value is not None …)` test of
`_ensure_gst`. -/
def gst_build (data : RawGst) (request : GenerationRequest) :
    Option (Option GSTBreakup) :=
  if (ensure_gst_mode data (ensure_gst_pos data request) request).isSome
      || data.cgst.isSome || data.sgst.isSome || data.igst.isSome
      || (ensure_gst_pos data request).isSome then
    (gst_validate (ensure_gst_mode data (ensure_gst_pos data request) request)
      data.cgst data.sgst data.igst (ensure_gst_pos data request)).map some
  else some none

/-- `_ensure_gst`: outer `none` = a `ValidationError` escapes; inner `none`
= no GST block. -/
def ensure_gst (raw : Option RawGst) (request : GenerationRequest) :
    Option (Option GSTBreakup) :=
  if raw.isNone && request.seller.tax_prefs.isNone then some none
  else gst_build (raw.getD {}) request

/-! ## UPI deep link (`ai-backend/app/services/upi.py`) -/

/-- Characters `urllib.parse.quote` leaves unescaped (default `safe="/"`). -/
def isUnreservedChar (c : Char) : Bool :=
  c.isAlphanum || c = '_' || c = '.' || c = '-' || c = '~' || c = '/'

def hexDigits : List Char :=
  ['0', '1', '2', '3', '4', '5', '6', '7', '8', '9', 'A', 'B', 'C', 'D', 'E', 'F']

def percentEncodeByte (b : ℕ) : String :=
  String.mk ['%', hexDigits.getD (b / 16) '0', hexDigits.getD (b % 16) '0']

def utf8Bytes (c : Char) : List ℕ :=
  let n := c.toNat
  if n < 0x80 then [n]
  else if n < 0x800 then [0xC0 + n / 64, 0x80 + n % 64]
  else if n < 0x10000 then [0xE0 + n / 4096, 0x80 + (n / 64) % 64, 0x80 + n % 64]
  else [0xF0 + n / 262144, 0x80 + (n / 4096) % 64, 0x80 + (n / 64) % 64, 0x80 + n % 64]

/-- `urllib.parse.quote` with the default safe set. -/
def urlQuote (s : String) : String :=
  String.join (s.toList.map fun c =>
    if isUnreservedChar c then String.singleton c
    else String.join ((utf8Bytes c).map percentEncodeByte))

/-- Python's `f"{x:.2f}"` (round-half-even to two decimals). -/
def formatAmount2 (q : ℚ) : String :=
  let n := roundTE (q * 100)
  let sign := if n < 0 then "-" else ""
  let a := n.natAbs
  let cents := a % 100
  sign ++ toString (a / 100) ++ "." ++ (if cents < 10 then "0" else "") ++ toString cents

/-- `generate_upi_deeplink`. -/
def generate_upi_deeplink (upi_id payee_name : String) (amount : Option ℚ)
    (currency : String) (note txn_ref callback_url : Option String) : String :=
  let parts := ["upi://pay?pa=" ++ urlQuote upi_id]
  let parts := parts ++ ["pn=" ++ urlQuote payee_name]
  let parts := parts ++ (match amount with
    | some a => ["am=" ++ formatAmount2 a]
    | none => [])
  let parts := parts ++ ["cu=" ++ currency]
  let parts := parts ++ (if strTruthy note then ["tn=" ++ urlQuote (note.getD "")] else [])
  let parts := parts ++ (if strTruthy txn_ref then ["tr=" ++ urlQuote (txn_ref.getD "")] else [])
  let parts := parts ++
    (if strTruthy callback_url then ["url=" ++ urlQuote (callback_url.getD "")] else [])
  "&".intercalate parts

/-- `_post_payment`. -/
def post_payment (payment : Option Payment) (request : GenerationRequest)
    (totals : Totals) : Option Payment :=
  match payment with
  | none => none
  | some p =>
    if p.mode = some "UPI" then
      let upi_id := (request.seller.bank.getD {}).upi_id
      if strTruthy upi_id then
        some { p with upi_deeplink := some (generate_upi_deeplink (upi_id.getD "")
          request.seller.name (some totals.grand_total) request.currency
          (some (request.requirement.take 50))
          ((request.hints.bind GenerationHints.doc_meta).bind HintDocMeta.doc_no)
          none) }
      else some p
    else some p

/-! ## The output normalizers
(`build_quotation_output` / `build_invoice_output`,
`ai-backend/app/services/output_processing.py`, lines 257-336).

The `Option` codomain records a `ValidationError` escaping from
`_ensure_payment` or `_ensure_gst` (the final `model_validate` on the
constructed payload cannot fail: every field is built well-typed). -/

def build_quotation_output (raw : RawDoc) (request : GenerationRequest)
    (today : Date) (todayStr : String) : Option QuotationOutput :=
  let issue_date := resolve_issue_date request raw.dates today
  let valid_till := resolve_valid_till issue_date request raw.dates
  let items := ensure_items raw.items (request.hints.bind GenerationHints.items) request
  let shipping := (raw.totals.getD {}).shipping.getD 0
  let totals := calculate_totals items shipping
  let terms := ensure_terms raw.terms (request.hints.bind GenerationHints.terms)
  match ensure_payment raw.payment request with
  | none => none
  | some payment =>
    some
      { doc_type := "QUOTATION",
        currency := pyOrStr raw.currency request.currency,
        locale := pyOrStr raw.locale request.locale,
        seller := ensure_party raw.seller (fallbackOfSeller request.seller),
        buyer := ensure_party raw.buyer (fallbackOfBuyer request.buyer),
        doc_meta := ensure_doc_meta raw.doc_meta request false "QUO" todayStr,
        dates := { issue_date := issue_date, valid_till := some valid_till },
        items := items,
        totals := totals,
        terms := terms,
        notes := pyOrOpt raw.notes request.seller.notes,
        payment := post_payment payment request totals }

def build_invoice_output (raw : RawDoc) (request : GenerationRequest)
    (today : Date) (todayStr : String) : Option TaxInvoiceOutput :=
  let issue_date := resolve_issue_date request raw.dates today
  let due_date := resolve_due_date issue_date request raw.dates
  let items := ensure_items raw.items (request.hints.bind GenerationHints.items) request
  let shipping := (raw.totals.getD {}).shipping.getD 0
  let totals := calculate_totals items shipping
  let terms := ensure_terms raw.terms (request.hints.bind GenerationHints.terms)
  match ensure_payment raw.payment request with
  | none => none
  | some payment =>
    match ensure_gst raw.gst request with
    | none => none
    | some gst =>
      some
        { doc_type := "TAX_INVOICE",
          currency := pyOrStr raw.currency request.currency,
          locale := pyOrStr raw.locale request.locale,
          seller := ensure_party raw.seller (fallbackOfSeller request.seller),
          buyer := ensure_party raw.buyer (fallbackOfBuyer request.buyer),
          doc_meta := ensure_doc_meta raw.doc_meta request true "INV" todayStr,
          dates := { issue_date := issue_date, due_date := some due_date },
          items := items,
          totals := totals,
          terms := terms,
          payment := post_payment payment request totals,
          gst := gst }

/-! ## Repair engine (`ai-backend/app/services/repair.py`)

Numeric item fields are `Option (Option ℚ)`: outer `none` = key absent
(per-field default applies), `some none` = present but not float-coercible
(falls back to 0.0), `some (some q)` = coercible value. -/

structure RawRepairItem where
  description : Option String := none
  qty : Option (Option ℚ) := none
  unit_price : Option (Option ℚ) := none
  discount : Option (Option ℚ) := none
  tax_rate : Option (Option ℚ) := none
  unit : Option String := none
deriving Repr, DecidableEq

/-- The per-item body of `repair_items`. -/
def repair_item (item : RawRepairItem) : LineDict :=
  { description := pyOrStr item.description "Item",
    qty := match item.qty with
      | some v => v.getD 0
      | none => 1,
    unit_price := match item.unit_price with
      | some v => v.getD 0
      | none => 0,
    discount := match item.discount with
      | some v => v.getD 0
      | none => 0,
    tax_rate := match item.tax_rate with
      | some v => v.getD 0
      | none => 0,
    unit := item.unit.getD "nos",
    line_total := 0, line_tax := 0, sno := 0 }

/-- `repair_items` (non-dict entries, `none` here, are skipped). -/
def repair_items (items : List (Option RawRepairItem)) : List LineDict :=
  items.filterMap (fun o => o.map repair_item)

structure RawRepairMeta where
  doc_id : Option String := none
  issue_date : Option Date := none
  due_date : Option Date := none
  valid_till : Option Date := none
deriving Repr, DecidableEq

structure RepairedMeta where
  doc_id : String
  issue_date : Date
  due_date : Option Date := none
  valid_till : Option Date := none
deriving Repr, DecidableEq

/-- `repair_doc_meta`; `todayStr` stands for
`f"{today.year}-{today.month:02d}{today.day:02d}"`. -/
def repair_doc_meta (meta : RawRepairMeta) (doc_type : String) (today : Date)
    (todayStr : String) : RepairedMeta :=
  let pfx := if doc_type = "QUOTATION" then "QT" else "INV"
  let doc_id := if strTruthy meta.doc_id then meta.doc_id.getD ""
    else pfx ++ "-" ++ todayStr ++ "-001"
  let issue_date := meta.issue_date.getD today
  let due_date := if doc_type = "TAX_INVOICE" && meta.due_date.isNone
    then some (issue_date + 7) else meta.due_date
  let valid_till := if doc_type = "QUOTATION" && meta.valid_till.isNone
    then some (issue_date + 15) else meta.valid_till
  { doc_id := doc_id, issue_date := issue_date, due_date := due_date,
    valid_till := valid_till }

structure RawRepairParty where
  name : Option String := none
  country : Option String := none
deriving Repr, DecidableEq

structure RawParties where
  seller : Option RawRepairParty := none
  buyer : Option RawRepairParty := none
deriving Repr, DecidableEq

structure RepairedParty where
  name : String
  country : String
deriving Repr, DecidableEq

def repair_party_entry (p : Option RawRepairParty) (defName : String) : RepairedParty :=
  let q := p.getD {}
  { name := pyOrStr q.name defName, country := q.country.getD "India" }

/-- `repair_parties`. -/
def repair_parties (parties : RawParties) : RepairedParty × RepairedParty :=
  (repair_party_entry parties.seller "Seller Name",
   repair_party_entry parties.buyer "Buyer Name")

/-- The raw draft dict handled by `repair_draft` (fields it touches). -/
structure RawDraft where
  doc_type : Option String := none
  doc_meta : Option RawRepairMeta := none
  parties : Option RawParties := none
  items : Option (List (Option RawRepairItem)) := none
  terms : Option (List String) := none
  payment : Option RawPayment := none
  totals : Option RawTotals := none
deriving Repr, DecidableEq

structure RepairedDraft where
  doc_type : String
  doc_meta : RepairedMeta
  parties : RepairedParty × RepairedParty
  items : List LineDict
  totals : TotalsDict
  terms : List String
  payment : RawPayment
deriving Repr, DecidableEq

/-- The item loop of `recompute_draft_totals`: recompute each line and stamp
serial numbers. -/
def recompute_items (items : List LineDict) : List LineDict :=
  items.enum.map fun pr => { compute_line_totals pr.2 with sno := pr.1 + 1 }

/-- `repair_draft` (including its final `recompute_draft_totals` pass;
the shipping used for the recomputed totals is the fixed 0 of
`ai-backend/app/services/totals.py::compute_totals`, and only `currency` is
read from the incoming totals block). -/
def repair_draft (draft : RawDraft) (today : Date) (todayStr : String) : RepairedDraft :=
  let doc_type := draft.doc_type.getD "QUOTATION"
  let items := recompute_items (repair_items (draft.items.getD []))
  let currency := (draft.totals.getD {}).currency.getD "INR"
  { doc_type := doc_type,
    doc_meta := repair_doc_meta (draft.doc_meta.getD {}) doc_type today todayStr,
    parties := repair_parties (draft.parties.getD {}),
    items := items,
    totals := compute_totals items currency,
    terms := draft.terms.getD [],
    payment := draft.payment.getD {} }

structure RawBundle where
  drafts : Option (List RawDraft) := none
deriving Repr, DecidableEq

structure RepairedBundle where
  drafts : List RepairedDraft
deriving Repr, DecidableEq

/-- `repair_bundle`. -/
def repair_bundle (bundle : RawBundle) (today : Date) (todayStr : String) : RepairedBundle :=
  { drafts := (bundle.drafts.getD []).map (fun d => repair_draft d today todayStr) }

/-- Modelled from the spec: the JSON Schema document
`document_bundle.schema.json` that `ValidationService.validate` loads is not
under `src/` (only the validator code is).  Modelled here are the constraint
this development needs — §3/§4.5 fix the draft `doc_type` enum to
{QUOTATION, TAX_INVOICE} — and the `(ok, errors)` envelope with
`/`-delimited paths of §6. -/
def validate_bundle (bundle : RepairedBundle) : Bool × List (String × String) :=
  let errors := bundle.drafts.enum.filterMap fun pr =>
    if pr.2.doc_type = "QUOTATION" ∨ pr.2.doc_type = "TAX_INVOICE" then none
    else some ("/drafts/" ++ toString pr.1 ++ "/doc_type",
      pr.2.doc_type ++ " is not one of [QUOTATION, TAX_INVOICE]")
  (errors.isEmpty, errors)

/-! ## Claims C1, C4, C5, C10 -/

/-- **C1 (amended).** The totals block of every document returned by
`build_quotation_output` / `build_invoice_output` is recomputed from the
resolved line items, ignoring every numeric totals field of the raw payload
except `shipping` (else 0).  For drafts returned by `repair_draft` the totals
are likewise recomputed from the repaired items, but the raw `shipping` is
ignored as well — the recomputed shipping is always 0, and only `currency`
survives from the raw totals block. -/
theorem claim_C1_amended :
    (∀ (raw : RawDoc) (request : GenerationRequest) (today : Date) (ts : String),
      (build_quotation_output raw request today ts).elim True fun out =>
        out.totals = calculate_totals
          (ensure_items raw.items (request.hints.bind GenerationHints.items) request)
          ((raw.totals.getD {}).shipping.getD 0))
    ∧ (∀ (raw : RawDoc) (request : GenerationRequest) (today : Date) (ts : String),
      (build_invoice_output raw request today ts).elim True fun out =>
        out.totals = calculate_totals
          (ensure_items raw.items (request.hints.bind GenerationHints.items) request)
          ((raw.totals.getD {}).shipping.getD 0))
    ∧ (∀ (draft : RawDraft) (today : Date) (ts : String),
      (repair_draft draft today ts).totals
          = compute_totals (recompute_items (repair_items (draft.items.getD [])))
              ((draft.totals.getD {}).currency.getD "INR")
        ∧ (repair_draft draft today ts).totals.shipping = 0) := by
  refine ⟨?_, ?_, ?_⟩
  · intro raw request today ts
    unfold build_quotation_output
    cases ensure_payment raw.payment request with
    | none => exact trivial
    | some payment => exact rfl
  · intro raw request today ts
    unfold build_invoice_output
    cases ensure_payment raw.payment request with
    | none => exact trivial
    | some payment =>
      cases ensure_gst raw.gst request with
      | none => exact trivial
      | some gst => exact rfl
  · intro draft today ts
    refine ⟨rfl, ?_⟩
    show round2 0 = 0
    exact round2_eq_self TwoDec.zero

/-- A draft whose raw totals block carries `shipping = 5`, with one item
(qty 1 at 10). -/
def c1Draft : RawDraft :=
  { items := some [some { qty := some (some 1), unit_price := some (some 10) }],
    totals := some { shipping := some 5 } }

/-- **C1 (counterexample).** For a draft returned by repair the claim's "only
the shipping value is taken from the raw totals block" fails: the raw
`shipping = 5` is discarded — the recomputed totals carry `shipping = 0` and a
grand total of 10 that excludes it. -/
theorem claim_C1_counterexample :
    (repair_draft c1Draft 0 "2025-0101").totals.shipping = 0
    ∧ (repair_draft c1Draft 0 "2025-0101").totals.grand_total = 10
    ∧ ((5 : ℚ) ≠ 0) := by
  with_unfolding_all decide

theorem gst_validate_values (m : Option String) (c s i : Option ℚ)
    (p : Option String) (g : GSTBreakup) (h : gst_validate m c s i p = some g) :
    g.cgst = c.getD 0 ∧ g.sgst = s.getD 0 ∧ g.igst = i.getD 0 := by
  unfold gst_validate at h
  split at h
  · split at h
    · cases h
      exact ⟨rfl, rfl, rfl⟩
    · cases h
  · cases h
    exact ⟨rfl, rfl, rfl⟩

theorem ensure_gst_values (raw : Option RawGst) (request : GenerationRequest)
    (g : GSTBreakup) (h : ensure_gst raw request = some (some g)) :
    g.cgst = (raw.getD {}).cgst.getD 0 ∧ g.sgst = (raw.getD {}).sgst.getD 0
    ∧ g.igst = (raw.getD {}).igst.getD 0 := by
  unfold ensure_gst at h
  split at h
  · simp at h
  · unfold gst_build at h
    split at h
    · rw [Option.map_eq_some'] at h
      obtain ⟨a, ha, hfa⟩ := h
      have hag : a = g := by injection hfa
      subst hag
      exact gst_validate_values _ _ _ _ _ _ ha
    · simp at h

/-- **C4 (amended).** For every invoice produced by `build_invoice_output`
whose GST block is present, `cgst`/`sgst`/`igst` are the raw payload's values
(coerced, defaulting to 0) — the normalizer derives the mode when absent but
never recomputes the amounts from `tax_total`, so the INTRA/INTER split
invariant holds only if the raw payload already satisfies it. -/
theorem claim_C4_amended (raw : RawDoc) (request : GenerationRequest)
    (today : Date) (ts : String) :
    (build_invoice_output raw request today ts).elim True fun inv =>
      inv.gst.elim True fun g =>
        g.cgst = (raw.gst.getD {}).cgst.getD 0
        ∧ g.sgst = (raw.gst.getD {}).sgst.getD 0
        ∧ g.igst = (raw.gst.getD {}).igst.getD 0 := by
  unfold build_invoice_output
  cases ensure_payment raw.payment request with
  | none => exact trivial
  | some payment =>
    cases hg : ensure_gst raw.gst request with
    | none => exact trivial
    | some gopt =>
      cases gopt with
      | none => exact trivial
      | some g => exact ensure_gst_values raw.gst request g hg

/-- A minimal generation request (no hints, no tax preferences). -/
def reqBase : GenerationRequest :=
  { buyer := { name := "Client Co" }, seller := { name := "Acme Pvt Ltd" },
    requirement := "Website revamp" }

/-- A raw invoice payload whose GST block claims mode INTRA with invented
amounts (cgst 7, sgst 1, igst 5) next to one item taxed 18. -/
def c4Raw : RawDoc :=
  { items := some
      [some { description := some "Development", qty := some 1, unit_price := some 100,
              tax_rate := some 18 }],
    gst := some { mode := some "INTRA", cgst := some 7, sgst := some 1, igst := some 5 } }

/-- **C4 (counterexample).** The built invoice recomputes `tax_total = 18` yet
keeps the LLM's `cgst = 7`, `sgst = 1`, `igst = 5` verbatim: nothing
substitutes the computed `tax_total/2` values, and the INTRA invariant
`cgst = sgst = tax_total/2 ∧ igst = 0` is violated in the produced document. -/
theorem claim_C4_counterexample :
    ((build_invoice_output c4Raw reqBase 0 "20250101").map fun inv =>
        (inv.totals.tax_total, inv.gst.map fun g => (g.mode, g.cgst, g.sgst, g.igst)))
      = some (18, some (some "INTRA", 7, 1, 5))
    ∧ ¬((7 : ℚ) = 18 / 2 ∧ (1 : ℚ) = 18 / 2 ∧ (5 : ℚ) = 0) := by
  with_unfolding_all decide

/-- **C10.** When the raw payload has no `gst` value and the seller profile
has no tax-preferences block, the built invoice's `gst` field is `None`: no
GST breakup is synthesized. -/
theorem claim_C10_gst_absent (raw : RawDoc) (request : GenerationRequest)
    (today : Date) (ts : String) (hraw : raw.gst = none)
    (hprefs : request.seller.tax_prefs = none) :
    (build_invoice_output raw request today ts).elim True fun inv => inv.gst = none := by
  have hcond : (raw.gst.isNone && request.seller.tax_prefs.isNone) = true := by
    rw [hraw, hprefs]
    rfl
  have hg : ensure_gst raw.gst request = some none := by
    unfold ensure_gst
    rw [if_pos hcond]
  unfold build_invoice_output
  cases ensure_payment raw.payment request with
  | none => exact trivial
  | some payment =>
    simp only [hg]
    exact rfl

/-- **C10 (witness).** `claim_C10_gst_absent` at the empty raw payload and the
minimal request; the build succeeds and its `gst` is `None`. -/
theorem claim_C10_witness :
    (build_invoice_output ({} : RawDoc) reqBase 0 "20250101").isSome = true
    ∧ (build_invoice_output ({} : RawDoc) reqBase 0 "20250101").elim True (fun inv => inv.gst = none) :=
  ⟨by with_unfolding_all decide, claim_C10_gst_absent ({} : RawDoc) reqBase 0 "20250101" rfl rfl⟩

/-- A bundle whose single draft carries the hallucinated doc_type
`PROJECT_BRIEF`. -/
def c5Bundle : RawBundle := { drafts := some [{ doc_type := some "PROJECT_BRIEF" }] }

/-- **C5.** `repair_bundle` only defaults `doc_type` when the key is missing;
an invalid enum value such as `PROJECT_BRIEF` is left in the repaired draft,
so validating the repaired bundle against the DocumentBundle schema fails —
`validate(repairBundle(bundle))` is not `(true, [])`. -/
theorem claim_C5_invalid_enum :
    ((repair_bundle c5Bundle 0 "2025-0101").drafts.map RepairedDraft.doc_type)
      = ["PROJECT_BRIEF"]
    ∧ (validate_bundle (repair_bundle c5Bundle 0 "2025-0101")).1 = false := by
  with_unfolding_all decide

/-! ## JSON extraction
(`extract_json` in `ai-backend/app/utils/json_extractor.py` and the
placeholder in `app/utils/json_tools.py`).

`json_loads` models Python's `json.loads` on the standard JSON grammar
(objects, arrays, strings with escapes, numbers, literals, whitespace),
parsed with ample fuel. -/

inductive Json where
  | null
  | bool (b : Bool)
  | num (q : ℚ)
  | str (s : String)
  | arr (xs : List Json)
  | obj (kvs : List (String × Json))

def isJsonWs (c : Char) : Bool :=
  c = ' ' || c = '\t' || c = '\n' || c = '\r'

def hexVal (c : Char) : Option ℕ :=
  if '0' ≤ c ∧ c ≤ '9' then some (c.toNat - 48)
  else if 'a' ≤ c ∧ c ≤ 'f' then some (c.toNat - 87)
  else if 'A' ≤ c ∧ c ≤ 'F' then some (c.toNat - 55)
  else none

/-- The body of a JSON string after the opening quote (fuel-driven). -/
def parseStringBody : ℕ → List Char → Option (List Char × List Char)
  | 0, _ => none
  | _ + 1, '"' :: rest => some ([], rest)
  | fuel + 1, '\\' :: e :: rest =>
    match e, rest with
    | 'u', h1 :: h2 :: h3 :: h4 :: rest2 =>
      match hexVal h1, hexVal h2, hexVal h3, hexVal h4 with
      | some a, some b, some c, some d =>
        match parseStringBody fuel rest2 with
        | some (s, r) => some (Char.ofNat (((a * 16 + b) * 16 + c) * 16 + d) :: s, r)
        | none => none
      | _, _, _, _ => none
    | _, _ =>
      let esc : Option Char :=
        if e = '"' then some '"'
        else if e = '\\' then some '\\'
        else if e = '/' then some '/'
        else if e = 'b' then some '\x08'
        else if e = 'f' then some '\x0c'
        else if e = 'n' then some '\n'
        else if e = 'r' then some '\r'
        else if e = 't' then some '\t'
        else none
      match esc with
      | some c =>
        match parseStringBody fuel rest with
        | some (s, r) => some (c :: s, r)
        | none => none
      | none => none
  | fuel + 1, c :: rest =>
    if c.toNat < 32 then none
    else
      match parseStringBody fuel rest with
      | some (s, r) => some (c :: s, r)
      | none => none
  | _ + 1, [] => none

def digitsToNat (ds : List Char) : ℕ :=
  ds.foldl (fun a c => a * 10 + (c.toNat - 48)) 0

/-- A JSON number: `-? int frac? exp?`. -/
def parseNumber (cs : List Char) : Option (Json × List Char) :=
  let (neg, cs1) := match cs with
    | '-' :: r => (true, r)
    | _ => (false, cs)
  let ds := cs1.takeWhile Char.isDigit
  let cs2 := cs1.dropWhile Char.isDigit
  if ds.isEmpty then none
  else if ds.head? = some '0' ∧ ds.length > 1 then none
  else
    let intv : ℚ := (digitsToNat ds : ℕ)
    let fracStep : Option (ℚ × List Char) := match cs2 with
      | '.' :: cs3 =>
        let fs := cs3.takeWhile Char.isDigit
        let cs4 := cs3.dropWhile Char.isDigit
        if fs.isEmpty then none
        else some (intv + (digitsToNat fs : ℕ) / ((10 : ℚ) ^ fs.length), cs4)
      | _ => some (intv, cs2)
    match fracStep with
    | none => none
    | some (v, cs5) =>
      let expStep : Option (ℚ × List Char) := match cs5 with
        | 'e' :: cs6 | 'E' :: cs6 =>
          let (eneg, cs7) := match cs6 with
            | '-' :: r => (true, r)
            | '+' :: r => (false, r)
            | _ => (false, cs6)
          let es := cs7.takeWhile Char.isDigit
          let cs8 := cs7.dropWhile Char.isDigit
          if es.isEmpty then none
          else
            let e := digitsToNat es
            some (if eneg then v / (10 : ℚ) ^ e else v * (10 : ℚ) ^ e, cs8)
        | _ => some (v, cs5)
      match expStep with
      | none => none
      | some (v2, cs9) => some (Json.num (if neg then -v2 else v2), cs9)

mutual

def parseValue : ℕ → List Char → Option (Json × List Char)
  | 0, _ => none
  | fuel + 1, cs =>
    match cs.dropWhile isJsonWs with
    | 'n' :: 'u' :: 'l' :: 'l' :: rest => some (Json.null, rest)
    | 't' :: 'r' :: 'u' :: 'e' :: rest => some (Json.bool true, rest)
    | 'f' :: 'a' :: 'l' :: 's' :: 'e' :: rest => some (Json.bool false, rest)
    | '"' :: rest =>
      match parseStringBody fuel rest with
      | some (s, r) => some (Json.str (String.mk s), r)
      | none => none
    | '[' :: rest => parseArrayItems fuel rest true []
    | '{' :: rest => parseObjectItems fuel rest true []
    | rest => parseNumber rest

def parseArrayItems : ℕ → List Char → Bool → List Json → Option (Json × List Char)
  | 0, _, _, _ => none
  | fuel + 1, cs, first, acc =>
    let cs1 := cs.dropWhile isJsonWs
    match cs1 with
    | ']' :: rest =>
      if first then some (Json.arr [], rest)
      else none
    | _ =>
      match parseValue fuel cs1 with
      | some (v, r) =>
        match r.dropWhile isJsonWs with
        | ',' :: r2 => parseArrayItems fuel r2 false (acc ++ [v])
        | ']' :: r2 => some (Json.arr (acc ++ [v]), r2)
        | _ => none
      | none => none

def parseObjectItems : ℕ → List Char → Bool → List (String × Json) →
    Option (Json × List Char)
  | 0, _, _, _ => none
  | fuel + 1, cs, first, acc =>
    let cs1 := cs.dropWhile isJsonWs
    match cs1 with
    | '}' :: rest =>
      if first then some (Json.obj [], rest)
      else none
    | '"' :: rest =>
      match parseStringBody fuel rest with
      | some (k, r) =>
        match r.dropWhile isJsonWs with
        | ':' :: r2 =>
          match parseValue fuel r2 with
          | some (v, r3) =>
            match r3.dropWhile isJsonWs with
            | ',' :: r4 => parseObjectItems fuel r4 false (acc ++ [(String.mk k, v)])
            | '}' :: r4 => some (Json.obj (acc ++ [(String.mk k, v)]), r4)
            | _ => none
          | none => none
        | _ => none
      | none => none
    | _ => none

end

/-- `json.loads`: parse the whole text, allowing surrounding whitespace. -/
def json_loads (text : String) : Option Json :=
  let cs := text.toList
  match parseValue (2 * cs.length + 8) cs with
  | some (v, rest) => if (rest.dropWhile isJsonWs).isEmpty then some v else none
  | none => none

/-- Python's `\s` on the ASCII range. -/
def isPyWs (c : Char) : Bool :=
  c = ' ' || c = '\t' || c = '\n' || c = '\r' || c = '\x0b' || c = '\x0c'

def threeTicks : List Char := ['`', '`', '`']

/-- The non-greedy `(\{.*?\})\s*` + closing fence tail of `_JSON_BLOCK`:
scanning left to right, the capture ends at the first `}` that is followed by
whitespace and three backticks. -/
def scanClose : List Char → List Char → Option (List Char)
  | acc, c :: rest =>
    if c = '}' && threeTicks.isPrefixOf (rest.dropWhile isPyWs) then some (acc ++ ['}'])
    else scanClose (acc ++ [c]) rest
  | _, [] => none

/-- Matching `_JSON_BLOCK` = ```` ```(?:json)?\s*(\{.*?\})\s*``` ```` (DOTALL)
anchored at the head of `cs`, returning the capture.  (When `json` follows the
fence the branch that skips it cannot match — `j` is not `{` — so consuming it
when present is exact.) -/
def matchFencedAt (cs : List Char) : Option (List Char) :=
  match cs with
  | '`' :: '`' :: '`' :: rest =>
    let rest1 := match rest with
      | 'j' :: 's' :: 'o' :: 'n' :: r => r
      | _ => rest
    match rest1.dropWhile isPyWs with
    | '{' :: r => scanClose ['{'] r
    | _ => none
  | _ => none

/-- `re.search` with `_JSON_BLOCK`: the leftmost match. -/
def jsonBlockSearchAux : List Char → Option (List Char)
  | [] => none
  | c :: rest =>
    match matchFencedAt (c :: rest) with
    | some cap => some cap
    | none => jsonBlockSearchAux rest

def jsonBlockSearch (text : String) : Option String :=
  (jsonBlockSearchAux text.toList).map String.mk

/-- `re.search` with `_OBJECT_MATCH` = `\{.*\}` (DOTALL): greedy, so the span
runs from the first `{` to the last `}` after it. -/
def objectSearch (text : String) : Option String :=
  let after := text.toList.dropWhile (fun c => c != '{')
  let upto := after.reverse.dropWhile (fun c => c != '}')
  if upto.isEmpty then none else some (String.mk upto.reverse)

/-- The `json.loads(snippet)` try/except of the brace-span attempt:
`Except.error` models falling through to the final `ValueError`. -/
def brace_parse (snippet : String) : Except Unit Json :=
  match json_loads snippet with
  | some obj => Except.ok obj
  | none => Except.error ()

/-- The final `_OBJECT_MATCH` attempt of `extract_json`
(`ai-backend/app/utils/json_extractor.py`): `Except.error` models the
`ValueError` raised when extraction fails. -/
def extract_json_brace_attempt (text : String) : Except Unit Json :=
  match objectSearch text with
  | some snippet => brace_parse snippet
  | none => Except.error ()

/-- The fenced-block stage once a block was found: parse its capture, else
fall through to the brace attempt. -/
def extract_json_fence_step (text candidate : String) : Except Unit Json :=
  match json_loads candidate with
  | some obj => Except.ok obj
  | none => extract_json_brace_attempt text

/-- `extract_json` (`ai-backend/app/utils/json_extractor.py`): whole text,
then the first fenced block, then the first brace span. -/
def extract_json (text : String) : Except Unit Json :=
  match json_loads text with
  | some obj => Except.ok obj
  | none =>
    match jsonBlockSearch text with
    | some candidate => extract_json_fence_step text candidate
    | none => extract_json_brace_attempt text

/-- `extract_json` (`app/utils/json_tools.py`): the placeholder that only
attempts whole-text parsing and returns `None` instead of raising. -/
def json_tools_extract_json (text : String) : Option Json :=
  json_loads text

example : json_loads "\x7b\"a\": 1\x7d" = some (Json.obj [("a", Json.num 1)]) := by
  with_unfolding_all rfl
example : json_loads "not json at all" = none := by with_unfolding_all rfl
example : json_loads " [1.5, -2e2, \"x\\n\", true, null] " =
    some (Json.arr [Json.num (3/2), Json.num (-200), Json.str "x\n",
      Json.bool true, Json.null]) := by
  with_unfolding_all rfl
example : jsonBlockSearch "pre ```json\n\x7b\"a\": 1\x7d\n``` post" =
    some "\x7b\"a\": 1\x7d" := by with_unfolding_all rfl
example : objectSearch "x \x7b\"a\": \x7b\x7d\x7d y \x7d z" =
    some "\x7b\"a\": \x7b\x7d\x7d y \x7d" := by with_unfolding_all rfl

theorem brace_parse_eq_ok (s : String) (obj : Json) :
    brace_parse s = Except.ok obj ↔ json_loads s = some obj := by
  unfold brace_parse
  cases h : json_loads s with
  | some o =>
    show Except.ok o = Except.ok obj ↔ some o = some obj
    simp
  | none =>
    show Except.error () = Except.ok obj ↔ none = some obj
    simp

theorem brace_parse_eq_err (s : String) :
    brace_parse s = Except.error () ↔ json_loads s = none := by
  unfold brace_parse
  cases h : json_loads s with
  | some o =>
    show Except.ok o = Except.error () ↔ some o = none
    simp
  | none =>
    show Except.error () = Except.error () ↔ (none : Option Json) = none
    simp

theorem brace_attempt_eq_ok (text : String) (obj : Json) :
    extract_json_brace_attempt text = Except.ok obj ↔
      ∃ c, objectSearch text = some c ∧ json_loads c = some obj := by
  unfold extract_json_brace_attempt
  cases h : objectSearch text with
  | some snippet =>
    show brace_parse snippet = Except.ok obj ↔
      ∃ c, some snippet = some c ∧ json_loads c = some obj
    rw [brace_parse_eq_ok]
    constructor
    · intro hp
      exact ⟨snippet, rfl, hp⟩
    · rintro ⟨c, hc, hp⟩
      have hcc : snippet = c := by injection hc
      rw [hcc]
      exact hp
  | none =>
    show Except.error () = Except.ok obj ↔
      ∃ c, (none : Option String) = some c ∧ json_loads c = some obj
    simp

theorem brace_attempt_eq_err (text : String) :
    extract_json_brace_attempt text = Except.error () ↔
      ∀ c, objectSearch text = some c → json_loads c = none := by
  unfold extract_json_brace_attempt
  cases h : objectSearch text with
  | some snippet =>
    show brace_parse snippet = Except.error () ↔
      ∀ c, some snippet = some c → json_loads c = none
    rw [brace_parse_eq_err]
    constructor
    · intro hp c hc
      have hcc : snippet = c := by injection hc
      rw [← hcc]
      exact hp
    · intro hall
      exact hall snippet rfl
  | none =>
    show Except.error () = Except.error () ↔
      ∀ c, (none : Option String) = some c → json_loads c = none
    constructor
    · intro _ c hc
      cases hc
    · intro _
      rfl

theorem fence_step_eq_ok (text candidate : String) (obj : Json) :
    extract_json_fence_step text candidate = Except.ok obj ↔
      json_loads candidate = some obj
      ∨ (json_loads candidate = none
         ∧ ∃ c, objectSearch text = some c ∧ json_loads c = some obj) := by
  unfold extract_json_fence_step
  cases h : json_loads candidate with
  | some o =>
    show Except.ok o = Except.ok obj ↔ _
    simp
  | none =>
    show extract_json_brace_attempt text = Except.ok obj ↔ _
    rw [brace_attempt_eq_ok]
    simp

theorem fence_step_eq_err (text candidate : String) :
    extract_json_fence_step text candidate = Except.error () ↔
      json_loads candidate = none
      ∧ ∀ c, objectSearch text = some c → json_loads c = none := by
  unfold extract_json_fence_step
  cases h : json_loads candidate with
  | some o =>
    show Except.ok o = Except.error () ↔ _
    simp
  | none =>
    show extract_json_brace_attempt text = Except.error () ↔ _
    rw [brace_attempt_eq_err]
    simp

/-- **C7 (amended).** The `ai-backend` extractor realises the three-stage
contract: whole text first, then the first fenced block, then the first brace
span, returning the first successfully parsed value and raising exactly when
all three attempts fail.  The `src/app` `json_tools.extract_json` cited for
the same claim is a placeholder that only attempts whole-text parsing and
returns `None` instead of raising. -/
theorem claim_C7_amended :
    (∀ (text : String) (obj : Json), json_loads text = some obj →
        extract_json text = Except.ok obj)
    ∧ (∀ (text : String) (obj : Json), extract_json text = Except.ok obj →
        json_loads text = some obj
        ∨ (∃ c, jsonBlockSearch text = some c ∧ json_loads c = some obj)
        ∨ (∃ c, objectSearch text = some c ∧ json_loads c = some obj))
    ∧ (∀ text : String, extract_json text = Except.error () ↔
        (json_loads text = none
         ∧ (∀ c, jsonBlockSearch text = some c → json_loads c = none)
         ∧ (∀ c, objectSearch text = some c → json_loads c = none)))
    ∧ (∀ text : String, json_tools_extract_json text = json_loads text) := by
  have hstep : ∀ text : String,
      (∀ obj, json_loads text = some obj → extract_json text = Except.ok obj)
      ∧ (∀ obj, extract_json text = Except.ok obj →
          json_loads text = some obj
          ∨ (∃ c, jsonBlockSearch text = some c ∧ json_loads c = some obj)
          ∨ (∃ c, objectSearch text = some c ∧ json_loads c = some obj))
      ∧ (extract_json text = Except.error () ↔
          (json_loads text = none
           ∧ (∀ c, jsonBlockSearch text = some c → json_loads c = none)
           ∧ (∀ c, objectSearch text = some c → json_loads c = none))) := by
    intro text
    unfold extract_json
    cases h1 : json_loads text with
    | some o =>
      refine ⟨?_, ?_, ?_⟩
      · intro obj hobj
        have : o = obj := by injection hobj
        show Except.ok o = Except.ok obj
        rw [this]
      · intro obj hobj
        replace hobj : Except.ok o = Except.ok obj := hobj
        have : o = obj := by injection hobj
        rw [← this]
        exact Or.inl rfl
      · show Except.ok o = Except.error () ↔
          (some o = none ∧ _ ∧ _)
        constructor
        · intro he
          exact Except.noConfusion he
        · rintro ⟨hn, -, -⟩
          exact Option.noConfusion hn
    | none =>
      cases h2 : jsonBlockSearch text with
      | some candidate =>
        refine ⟨?_, ?_, ?_⟩
        · intro obj hobj
          exact Option.noConfusion hobj
        · intro obj hobj
          replace hobj : extract_json_fence_step text candidate = Except.ok obj := hobj
          rw [fence_step_eq_ok] at hobj
          rcases hobj with hc | ⟨-, c, hoc, hjc⟩
          · exact Or.inr (Or.inl ⟨candidate, rfl, hc⟩)
          · exact Or.inr (Or.inr ⟨c, hoc, hjc⟩)
        · show extract_json_fence_step text candidate = Except.error () ↔
            ((none : Option Json) = none ∧ _ ∧ _)
          rw [fence_step_eq_err]
          constructor
          · rintro ⟨hcand, hbrace⟩
            refine ⟨rfl, ?_, hbrace⟩
            intro c hc
            have hcc : candidate = c := by injection hc
            rw [← hcc]
            exact hcand
          · rintro ⟨-, hblock, hbrace⟩
            exact ⟨hblock candidate rfl, hbrace⟩
      | none =>
        refine ⟨?_, ?_, ?_⟩
        · intro obj hobj
          exact Option.noConfusion hobj
        · intro obj hobj
          replace hobj : extract_json_brace_attempt text = Except.ok obj := hobj
          rw [brace_attempt_eq_ok] at hobj
          exact Or.inr (Or.inr hobj)
        · show extract_json_brace_attempt text = Except.error () ↔
            ((none : Option Json) = none ∧ _ ∧ _)
          rw [brace_attempt_eq_err]
          constructor
          · intro hbrace
            refine ⟨rfl, ?_, hbrace⟩
            intro c hc
            cases hc
          · rintro ⟨-, -, hbrace⟩
            exact hbrace
  exact ⟨fun text obj => (hstep text).1 obj,
         fun text obj => (hstep text).2.1 obj,
         fun text => (hstep text).2.2,
         fun _ => rfl⟩

/-- The spec §8 extraction scenario: a fenced `json` block inside prose. -/
def fencedText : String := "Here is the result:\n```json\n\x7b\"a\": 1\x7d\n```"

/-- **C7 (counterexample).** On a fenced-block input the `src/app`
`json_tools.extract_json` cited by the claim neither tries the fenced block
nor raises an extraction error: it returns `None` — a non-error result without
a parsed object — while the `ai-backend` extractor returns the parsed object. -/
theorem claim_C7_counterexample :
    json_tools_extract_json fencedText = none
    ∧ extract_json fencedText = Except.ok (Json.obj [("a", Json.num 1)]) := by
  constructor
  · with_unfolding_all rfl
  · with_unfolding_all rfl

/-- **C7 (witness).** `claim_C7_amended` applied at the spec's fenced-block
scenario, its hypothesis discharged by evaluation. -/
theorem claim_C7_witness :
    extract_json fencedText = Except.ok (Json.obj [("a", Json.num 1)])
    ∧ (json_loads fencedText = some (Json.obj [("a", Json.num 1)])
       ∨ (∃ c, jsonBlockSearch fencedText = some c
             ∧ json_loads c = some (Json.obj [("a", Json.num 1)]))
       ∨ (∃ c, objectSearch fencedText = some c
             ∧ json_loads c = some (Json.obj [("a", Json.num 1)]))) :=
  ⟨by with_unfolding_all rfl,
   claim_C7_amended.2.1 fencedText (Json.obj [("a", Json.num 1)])
     (by with_unfolding_all rfl)⟩

example : roundTE (3/2 : ℚ) = 2 := by with_unfolding_all decide
example : roundTE (1/2 : ℚ) = 0 := by with_unfolding_all decide
example : round2 (1/200 : ℚ) = 0 := by with_unfolding_all decide
example : number_to_words_indian 59000 = some "Fifty Nine Thousand Rupees Only" := by with_unfolding_all decide
example : app_number_to_words_indian 59000 = some "Fifty Nine Thousand Rupees Only" := by with_unfolding_all decide
example : number_to_words_indian 1000000000 = none := by with_unfolding_all decide
example : app_number_to_words_indian 1000000000 = none := by with_unfolding_all decide

end Brief2Bill
